/-
Verification of the stock accounting and reservation engine of
inventory-sync-api (src/modules/inventory/inventory.service.ts).

Shallow embedding notes:
- JavaScript numbers used as stock counters are modelled as Int.
- Time is modelled as an abstract Nat tick, in seconds: the cache TTL of
  300 and reservation ttlSeconds are added to the current tick directly.
- Mongoose documents become Lean structures; a collection is a List with
  at most one element per identity key.
- Async calls become sequential state passing; a thrown Error becomes the
  error side of Except.  The mongo session transaction of updateStock is
  modelled by returning the caller's store unchanged on every error path
  (abortTransaction), while the non-transactional cache / event-emitter /
  queue effects that already happened are kept.
- The code throws untyped Error values distinguished only by message; the
  StockError constructors below stand for those messages one for one.
- External collaborators that may fail (cache store deletions, the event
  emitter, the bull queue) are modelled by a SideEffectEnv of success
  flags passed to updateStock.
-/
import Mathlib

namespace InventorySync

/-- Errors thrown by the service, one constructor per distinct throw site.
The first two carry the messages "Insufficient stock available" and
"Insufficient stock to reserve" and both denote the spec taxonomy's
InsufficientStockError; cannotReleaseMoreThanReserved is the spec's
InvalidReleaseError; invalidOperation is InvalidOperationError;
insufficientStockPreCheck is the reserveStock pre-check throw;
the three Failed constructors stand for infrastructure errors raised by
the cache store, the event emitter, and the queue. -/
inductive StockError where
  | insufficientStockAvailable
  | insufficientStockToReserve
  | cannotReleaseMoreThanReserved
  | invalidOperation
  | insufficientStockPreCheck
  | cacheDelFailed
  | emitFailed
  | queueAddFailed
deriving DecidableEq

/-- Entry of the history array pushed on InventoryItem by updateStock. -/
structure HistoryEntry where
  operation : String
  quantity : Int
  reason : Option String
  referenceId : Option String
  timestamp : Nat
deriving DecidableEq

/-- The InventoryItem mongoose schema (StockRecord of the spec).
Defaults per the schema: quantity 0, reserved 0, lowStockThreshold 10,
isActive true. -/
structure InventoryItem where
  productId : String
  warehouseId : String
  quantity : Int
  reserved : Int
  lowStockThreshold : Int
  isActive : Bool
  history : List HistoryEntry
  lastUpdated : Nat
deriving DecidableEq

/-- The audit document written by updateStock (StockUpdateRecord). -/
structure StockUpdateRecord where
  productId : String
  warehouseId : String
  operation : String
  quantity : Int
  newQuantity : Int
  newReserved : Int
  reason : Option String
  referenceId : Option String
  timestamp : Nat
deriving DecidableEq

/-- The StockReservation mongoose document. -/
structure Reservation where
  id : String
  productId : String
  warehouseId : String
  quantity : Int
  status : String
  createdAt : Nat
  expiresAt : Nat
deriving DecidableEq

/-- A cache-manager entry: key, value and absolute expiry tick. -/
structure CacheEntry where
  key : String
  value : Int
  expiresAt : Nat
deriving DecidableEq

/-- Payload added to the stock-updates bull queue after a mutation. -/
structure QueueJob where
  productId : String
  warehouseId : String
  operation : String
  quantity : Int
  timestamp : Nat
deriving DecidableEq

/-- The LowStockEvent emitted when available stock crosses the threshold. -/
structure LowStockEvent where
  productId : String
  warehouseId : String
  availableStock : Int
  threshold : Int
deriving DecidableEq

/-- The durable mongo collections. -/
structure Store where
  items : List InventoryItem
  audits : List StockUpdateRecord
  reservations : List Reservation
deriving DecidableEq

/-- Whole observable system state: durable store plus cache, queue and
emitted events. -/
structure SysState where
  store : Store
  cache : List CacheEntry
  queue : List QueueJob
  events : List LowStockEvent
deriving DecidableEq

/-- Success flags for the external side-effect collaborators used inside
updateStock: cache deletions, the synchronous event emitter, the queue. -/
structure SideEffectEnv where
  cacheDelOk : Bool
  emitOk : Bool
  queueAddOk : Bool
deriving DecidableEq

/-- UpdateStockDto as consumed by updateStock. -/
structure UpdateStockDto where
  productId : String
  warehouseId : String
  quantity : Int
  operation : String
  reason : Option String
  referenceId : Option String
deriving DecidableEq

/-- ReserveStockDto as consumed by reserveStock; ttlSeconds is optional
and defaults to RESERVATION_TTL. -/
structure ReserveStockDto where
  productId : String
  quantity : Int
  warehouseId : String
  ttlSeconds : Option Nat
deriving DecidableEq

/-- Result of getStockLevel: the returned number, the cache afterwards,
and how many aggregate reads hit the store (0 or 1). -/
structure QueryResult where
  value : Int
  cache : List CacheEntry
  storeReads : Nat
deriving DecidableEq

def CACHE_TTL : Nat := 300

def RESERVATION_TTL : Nat := 1800

/-- The cache key, mirroring stock:productId:warehouseId-or-all.
An absent (or empty, hence falsy) warehouseId is modelled as none. -/
def cacheKey (productId : String) (warehouseId : Option String) : String :=
  "stock:" ++ productId ++ ":" ++ (match warehouseId with
    | some w => w
    | none => "all")

/-- cacheManager.get: the stored number while the entry is unexpired,
otherwise none (undefined). -/
def cacheGet (cache : List CacheEntry) (now : Nat) (k : String) : Option Int :=
  match cache.find? (fun e => e.key == k) with
  | some e => if now < e.expiresAt then some e.value else none
  | none => none

/-- cacheManager.set with a TTL expressed as an absolute expiry tick. -/
def cacheSet (cache : List CacheEntry) (k : String) (v : Int) (expiry : Nat) :
    List CacheEntry :=
  { key := k, value := v, expiresAt := expiry } :: cache.filter (fun e => e.key != k)

/-- clearStockCache: deletes the product aggregate key and, when a
warehouseId is given (truthy), the warehouse-scoped key. -/
def clearStockCache (cache : List CacheEntry) (productId : String)
    (warehouseId : Option String) : List CacheEntry :=
  let keys := [cacheKey productId none] ++ (match warehouseId with
    | some w => [cacheKey productId (some w)]
    | none => [])
  cache.filter (fun e => !(keys.contains e.key))

/-- Lookup of the unique InventoryItem for a (productId, warehouseId). -/
def findItem (items : List InventoryItem) (pid wid : String) :
    Option InventoryItem :=
  items.find? (fun x => x.productId == pid && x.warehouseId == wid)

/-- The zeroed document created by the upsert when no item exists yet,
with the schema defaults. -/
def freshItem (pid wid : String) (now : Nat) : InventoryItem :=
  { productId := pid
    warehouseId := wid
    quantity := 0
    reserved := 0
    lowStockThreshold := 10
    isActive := true
    history := []
    lastUpdated := now }

/-- Replace the (unique) item with the same identity, or append. -/
def upsertItem : List InventoryItem → InventoryItem → List InventoryItem
  | [], it2 => [it2]
  | x :: xs, it2 =>
    if x.productId == it2.productId && x.warehouseId == it2.warehouseId then
      it2 :: xs
    else
      x :: upsertItem xs it2

/-- Lookup of a reservation by id (findById). -/
def findReservation (rs : List Reservation) (rid : String) : Option Reservation :=
  rs.find? (fun x => x.id == rid)

/-- reservation.save() on an existing document: replace by id. -/
def saveReservation (rs : List Reservation) (r2 : Reservation) :
    List Reservation :=
  rs.map (fun x => if x.id == r2.id then r2 else x)

/-- The switch over the operation kind in updateStock lines 96-120:
given current quantity q and reserved r, returns the new (quantity,
reserved) pair or the error thrown. -/
def applyKind (op : String) (q r amount : Int) :
    Except StockError (Int × Int) :=
  if op == "ADD" then
    .ok (q + amount, r)
  else if op == "SUBTRACT" then
    if q - r < amount then .error .insufficientStockAvailable
    else .ok (q - amount, r)
  else if op == "RESERVE" then
    if q - r < amount then .error .insufficientStockToReserve
    else .ok (q, r + amount)
  else if op == "RELEASE" then
    if r < amount then .error .cannotReleaseMoreThanReserved
    else .ok (q, r - amount)
  else
    .error .invalidOperation

/-- True when an item matches the aggregation query of getStockLevel:
same productId, isActive, and same warehouseId when one is given. -/
def matchesQuery (it : InventoryItem) (pid : String) (wid : Option String) :
    Bool :=
  it.productId == pid && it.isActive && (match wid with
    | some w => it.warehouseId == w
    | none => true)

/-- The aggregation pipeline: sum of quantity minus sum of reserved over
matching active items; 0 when nothing matches (result[0] absent). -/
def availableAggregate (items : List InventoryItem) (pid : String)
    (wid : Option String) : Int :=
  let ms := items.filter (fun it => matchesQuery it pid wid)
  if ms.isEmpty then 0
  else ((ms.map (fun it => it.quantity)).sum) - ((ms.map (fun it => it.reserved)).sum)

/-- getStockLevel: cache hit returns the cached number without touching
the store; on miss the aggregate is computed, cached for CACHE_TTL and
returned. -/
def getStockLevel (now : Nat) (items : List InventoryItem)
    (cache : List CacheEntry) (productId : String)
    (warehouseId : Option String) : QueryResult :=
  let k := cacheKey productId warehouseId
  match cacheGet cache now k with
  | some v => { value := v, cache := cache, storeReads := 0 }
  | none =>
    let avail := availableAggregate items productId warehouseId
    { value := avail, cache := cacheSet cache k avail (now + CACHE_TTL),
      storeReads := 1 }

/-- updateStock: the per-key transaction.  The upsert reads (or creates
zeroed) the item, the switch computes the new counters, the item with a
pushed history entry and a StockUpdateRecord are written, the cache keys
are cleared, a low-stock event is emitted when the new available stock is
at or below the threshold, and a queue job is added; only then does the
session commit.  Every thrown error aborts the session, so on every error
path the returned state keeps the caller's store while keeping whatever
non-transactional cache/event effects already ran. -/
def updateStock (env : SideEffectEnv) (now : Nat) (dto : UpdateStockDto)
    (st : SysState) : Except StockError InventoryItem × SysState :=
  let item0 := (findItem st.store.items dto.productId dto.warehouseId).getD
    (freshItem dto.productId dto.warehouseId now)
  match applyKind dto.operation item0.quantity item0.reserved dto.quantity with
  | .error e => (.error e, st)
  | .ok qr =>
    let item1 : InventoryItem :=
      { item0 with
        quantity := qr.1
        reserved := qr.2
        lastUpdated := now
        history := item0.history ++
          [{ operation := dto.operation
             quantity := dto.quantity
             reason := dto.reason
             referenceId := dto.referenceId
             timestamp := now }] }
    let store1 : Store :=
      { items := upsertItem st.store.items item1
        audits := st.store.audits ++
          [{ productId := dto.productId
             warehouseId := dto.warehouseId
             operation := dto.operation
             quantity := dto.quantity
             newQuantity := qr.1
             newReserved := qr.2
             reason := dto.reason
             referenceId := dto.referenceId
             timestamp := now }]
        reservations := st.store.reservations }
    if env.cacheDelOk then
      let cache1 := clearStockCache st.cache dto.productId (some dto.warehouseId)
      if env.emitOk then
        let avail := qr.1 - qr.2
        let events1 :=
          if avail ≤ item1.lowStockThreshold then
            st.events ++
              [{ productId := dto.productId
                 warehouseId := dto.warehouseId
                 availableStock := avail
                 threshold := item1.lowStockThreshold }]
          else st.events
        if env.queueAddOk then
          (.ok item1,
            { store := store1
              cache := cache1
              queue := st.queue ++
                [{ productId := dto.productId
                   warehouseId := dto.warehouseId
                   operation := dto.operation
                   quantity := dto.quantity
                   timestamp := now }]
              events := events1 })
        else
          (.error .queueAddFailed, { st with cache := cache1, events := events1 })
      else
        (.error .emitFailed, { st with cache := cache1 })
    else
      (.error .cacheDelFailed, st)

/-- reserveStock: pre-checks availability via getStockLevel, persists an
ACTIVE reservation (outside any session), then issues the authoritative
RESERVE through updateStock.  As in the source there is no rollback of
the reservation when that RESERVE fails: the error simply propagates.
newId stands for the generated mongo _id. -/
def reserveStock (env : SideEffectEnv) (now : Nat) (newId : String)
    (dto : ReserveStockDto) (st : SysState) :
    Except StockError String × SysState :=
  let ttl := dto.ttlSeconds.getD RESERVATION_TTL
  let q1 := getStockLevel now st.store.items st.cache dto.productId
    (some dto.warehouseId)
  let st1 := { st with cache := q1.cache }
  if q1.value < dto.quantity then
    (.error .insufficientStockPreCheck, st1)
  else
    let r : Reservation :=
      { id := newId
        productId := dto.productId
        warehouseId := dto.warehouseId
        quantity := dto.quantity
        status := "ACTIVE"
        createdAt := now
        expiresAt := now + ttl }
    let st2 := { st1 with store :=
      { st1.store with reservations := st1.store.reservations ++ [r] } }
    let res2 := updateStock env now
      { productId := dto.productId
        warehouseId := dto.warehouseId
        quantity := dto.quantity
        operation := "RESERVE"
        reason := some "Order reservation"
        referenceId := some newId } st2
    match res2.1 with
    | .ok _ => (.ok newId, res2.2)
    | .error e => (.error e, res2.2)

/-- checkReservationExpiry: the expiry-timer handler.  Re-reads the
reservation; when still ACTIVE it is saved as EXPIRED and a RELEASE of
its quantity is applied through updateStock with reason "Reservation
expired" and referenceId the reservation id; otherwise nothing changes. -/
def checkReservationExpiry (env : SideEffectEnv) (now : Nat) (rid : String)
    (st : SysState) : Except StockError Unit × SysState :=
  match findReservation st.store.reservations rid with
  | none => (.ok (), st)
  | some r =>
    if r.status == "ACTIVE" then
      let r2 := { r with status := "EXPIRED" }
      let st1 := { st with store :=
        { st.store with reservations := saveReservation st.store.reservations r2 } }
      let res2 := updateStock env now
        { productId := r.productId
          warehouseId := r.warehouseId
          quantity := r.quantity
          operation := "RELEASE"
          reason := some "Reservation expired"
          referenceId := some rid } st1
      match res2.1 with
      | .ok _ => (.ok (), res2.2)
      | .error e => (.error e, res2.2)
    else
      (.ok (), st)

/-- The StockRecord counter invariant of the spec on a (quantity,
reserved) pair. -/
def stockInvariant (s : Int × Int) : Prop :=
  0 ≤ s.2 ∧ s.2 ≤ s.1

instance (s : Int × Int) : Decidable (stockInvariant s) := by
  unfold stockInvariant
  infer_instance

/-- One applyOperation call on the counters alone: a failed call leaves
the state unchanged (the transaction aborts). -/
def stepOp (s : Int × Int) (op : String × Int) : Int × Int :=
  match applyKind op.1 s.1 s.2 op.2 with
  | .ok s2 => s2
  | .error _ => s

/-- A sequence of applyOperation calls starting from the freshly created
zeroed record. -/
def runOps (ops : List (String × Int)) : Int × Int :=
  ops.foldl stepOp (0, 0)

/-- All external side-effect collaborators succeed. -/
def envAll : SideEffectEnv :=
  { cacheDelOk := true, emitOk := true, queueAddOk := true }

/-- The queue enqueue rejects; cache and emitter work. -/
def envNoQueue : SideEffectEnv :=
  { cacheDelOk := true, emitOk := true, queueAddOk := false }

/-- Concrete item used by the evaluation theorems: 10 on hand, none
reserved, threshold 0 (so no low-stock event fires in the samples). -/
def sampleItem : InventoryItem :=
  { productId := "P1"
    warehouseId := "W1"
    quantity := 10
    reserved := 0
    lowStockThreshold := 0
    isActive := true
    history := []
    lastUpdated := 0 }

/-- State for the C1 evaluation: the cache still holds a stale available
stock of 100 for (P1, W1) while the store item is at quantity 0, the
situation the optimistic pre-check race produces. -/
def stateC1 : SysState :=
  { store :=
      { items := [{ sampleItem with quantity := 0 }]
        audits := []
        reservations := [] }
    cache := [{ key := "stock:P1:W1", value := 100, expiresAt := 1000 }]
    queue := []
    events := [] }

/-- State for the C2 evaluation: one healthy item, empty cache. -/
def stateC2 : SysState :=
  { store := { items := [sampleItem], audits := [], reservations := [] }
    cache := []
    queue := []
    events := [] }

/-- A valid ADD of 5 units on (P1, W1). -/
def addDto : UpdateStockDto :=
  { productId := "P1"
    warehouseId := "W1"
    quantity := 5
    operation := "ADD"
    reason := some "Restock"
    referenceId := none }

/-- State for the C9 theorems: the cache holds the aggregate key, the
operation's warehouse key, a key for the same product scoped to another
warehouse W2, and a key for another product. -/
def stateC9 : SysState :=
  { store := { items := [sampleItem], audits := [], reservations := [] }
    cache :=
      [{ key := "stock:P1:all", value := 10, expiresAt := 1000 }
       , { key := "stock:P1:W1", value := 10, expiresAt := 1000 }
       , { key := "stock:P1:W2", value := 7, expiresAt := 1000 }
       , { key := "stock:P2:all", value := 3, expiresAt := 1000 }]
    queue := []
    events := [] }

/-- The item produced by a successful ADD of addDto on stateC9 at tick 1. -/
def itemC9 : InventoryItem :=
  { productId := "P1"
    warehouseId := "W1"
    quantity := 15
    reserved := 0
    lowStockThreshold := 0
    isActive := true
    history :=
      [{ operation := "ADD"
         quantity := 5
         reason := some "Restock"
         referenceId := none
         timestamp := 1 }]
    lastUpdated := 1 }

/-- An ACTIVE reservation of 4 units of (P1, W1) used by the C7 witness. -/
def sampleRes : Reservation :=
  { id := "r1"
    productId := "P1"
    warehouseId := "W1"
    quantity := 4
    status := "ACTIVE"
    createdAt := 0
    expiresAt := 60 }

/-- The sample item with 4 of its 10 units reserved. -/
def sampleItemR : InventoryItem := { sampleItem with reserved := 4 }

/-- State for the C7 witness: the item holds the reservation's 4 units. -/
def stateC7 : SysState :=
  { store :=
      { items := [sampleItemR]
        audits := []
        reservations := [sampleRes] }
    cache := []
    queue := []
    events := [] }

/-- The spec's Scenario B item: quantity 10, reserved 5. -/
def sampleItemB : InventoryItem :=
  { productId := "P1"
    warehouseId := "W1"
    quantity := 10
    reserved := 5
    lowStockThreshold := 0
    isActive := true
    history := []
    lastUpdated := 0 }

/-- State holding only the Scenario B item. -/
def stateB : SysState :=
  { store := { items := [sampleItemB], audits := [], reservations := [] }
    cache := []
    queue := []
    events := [] }

/-- SUBTRACT 6 on (P1, W1): infeasible on the Scenario B counters. -/
def subDto : UpdateStockDto :=
  { productId := "P1"
    warehouseId := "W1"
    quantity := 6
    operation := "SUBTRACT"
    reason := some "Sale"
    referenceId := none }

/-- A reservation request for 5 units of (P1, W1), default ttl. -/
def reserveDto : ReserveStockDto :=
  { productId := "P1", quantity := 5, warehouseId := "W1", ttlSeconds := none }

/-- The item updateStock writes on success: counters replaced by the
switch result, lastUpdated set, the history entry pushed. -/
def itemAfter (it : InventoryItem) (dto : UpdateStockDto) (q2 r2 : Int)
    (now : Nat) : InventoryItem :=
  { it with
    quantity := q2
    reserved := r2
    lastUpdated := now
    history := it.history ++
      [{ operation := dto.operation
         quantity := dto.quantity
         reason := dto.reason
         referenceId := dto.referenceId
         timestamp := now }] }

/-- The audit record updateStock writes on success. -/
def auditAfter (dto : UpdateStockDto) (q2 r2 : Int) (now : Nat) :
    StockUpdateRecord :=
  { productId := dto.productId
    warehouseId := dto.warehouseId
    operation := dto.operation
    quantity := dto.quantity
    newQuantity := q2
    newReserved := r2
    reason := dto.reason
    referenceId := dto.referenceId
    timestamp := now }

theorem applyKind_add (q r a : Int) : applyKind "ADD" q r a = .ok (q + a, r) := rfl

theorem applyKind_subtract (q r a : Int) :
    applyKind "SUBTRACT" q r a =
      if q - r < a then .error .insufficientStockAvailable else .ok (q - a, r) := rfl

theorem applyKind_reserve (q r a : Int) :
    applyKind "RESERVE" q r a =
      if q - r < a then .error .insufficientStockToReserve else .ok (q, r + a) := rfl

theorem applyKind_release (q r a : Int) :
    applyKind "RELEASE" q r a =
      if r < a then .error .cannotReleaseMoreThanReserved else .ok (q, r - a) := rfl

theorem applyKind_ok_invariant (op : String) (q r a q2 r2 : Int)
    (h : applyKind op q r a = .ok (q2, r2)) (h0 : 0 ≤ r) (h1 : r ≤ q)
    (ha : 0 < a) : 0 ≤ r2 ∧ r2 ≤ q2 := by
  unfold applyKind at h
  repeat' split at h
  all_goals simp only [Except.ok.injEq, Prod.mk.injEq, reduceCtorEq] at h
  all_goals obtain ⟨hq2, hr2⟩ := h
  all_goals constructor <;> omega

theorem stepOp_invariant (s : Int × Int) (op : String) (a : Int)
    (hs : stockInvariant s) (ha : 0 < a) :
    stockInvariant (stepOp s (op, a)) := by
  unfold stepOp
  cases h : applyKind op s.1 s.2 a with
  | error e => exact hs
  | ok s2 =>
    obtain ⟨q2, r2⟩ := s2
    exact applyKind_ok_invariant op s.1 s.2 a q2 r2 h hs.1 hs.2 ha

theorem foldl_stepOp_invariant (ops : List (String × Int)) (s : Int × Int)
    (hs : stockInvariant s) (hpos : ∀ p ∈ ops, 0 < p.2) :
    stockInvariant (ops.foldl stepOp s) := by
  induction ops generalizing s with
  | nil => simpa using hs
  | cons p ps ih =>
    rw [List.foldl_cons]
    apply ih
    · obtain ⟨op, a⟩ := p
      exact stepOp_invariant s op a hs (by simpa using hpos (op, a) (by simp))
    · intro p2 hp2
      exact hpos p2 (by simp [hp2])

/-- Claim C3: per-kind semantics of the applyOperation switch, on any counters
with 0 ≤ reserved ≤ quantity and amount > 0: ADD always succeeds adding
to quantity; SUBTRACT fails with the insufficient-stock error exactly
when quantity − reserved < amount and otherwise subtracts from quantity;
RESERVE fails with the insufficient-stock error exactly when
quantity − reserved < amount and otherwise adds to reserved; RELEASE
fails with the invalid-release error exactly when reserved < amount and
otherwise subtracts from reserved; any other kind fails with the
invalid-operation error.  The two insufficient constructors carry the
messages the spec taxonomy calls InsufficientStockError,
cannotReleaseMoreThanReserved is its InvalidReleaseError, and
invalidOperation its InvalidOperationError. -/
theorem claim_C3 (q r a : Int) (h0 : 0 ≤ r) (h1 : r ≤ q) (ha : 0 < a) :
    applyKind "ADD" q r a = .ok (q + a, r)
  ∧ (q - r < a → applyKind "SUBTRACT" q r a = .error .insufficientStockAvailable)
  ∧ (a ≤ q - r → applyKind "SUBTRACT" q r a = .ok (q - a, r))
  ∧ (q - r < a → applyKind "RESERVE" q r a = .error .insufficientStockToReserve)
  ∧ (a ≤ q - r → applyKind "RESERVE" q r a = .ok (q, r + a))
  ∧ (r < a → applyKind "RELEASE" q r a = .error .cannotReleaseMoreThanReserved)
  ∧ (a ≤ r → applyKind "RELEASE" q r a = .ok (q, r - a))
  ∧ (∀ op : String, op ≠ "ADD" → op ≠ "SUBTRACT" → op ≠ "RESERVE" →
      op ≠ "RELEASE" → applyKind op q r a = .error .invalidOperation) := by
  refine ⟨applyKind_add q r a, ?_, ?_, ?_, ?_, ?_, ?_, ?_⟩
  · intro h; rw [applyKind_subtract, if_pos h]
  · intro h; rw [applyKind_subtract, if_neg (by omega)]
  · intro h; rw [applyKind_reserve, if_pos h]
  · intro h; rw [applyKind_reserve, if_neg (by omega)]
  · intro h; rw [applyKind_release, if_pos h]
  · intro h; rw [applyKind_release, if_neg (by omega)]
  · intro op hadd hsub hres hrel
    simp [applyKind, beq_iff_eq, hadd, hsub, hres, hrel]

/-- Witness for C3 at quantity 10, reserved 5, amount 6 (the spec's
Scenario B counters): SUBTRACT fails with the insufficient-stock error. -/
theorem claim_C3_witness :
    ((0 : Int) ≤ 5 ∧ (5 : Int) ≤ 10 ∧ (0 : Int) < 6)
  ∧ applyKind "SUBTRACT" 10 5 6 = .error .insufficientStockAvailable :=
  ⟨by norm_num,
   (claim_C3 10 5 6 (by norm_num) (by norm_num) (by norm_num)).2.1 (by norm_num)⟩

/-- Claim C4: starting from the freshly created zeroed record, any sequence of
applyOperation calls with positive amounts (failed calls leave the state
unchanged, as the transaction aborts) keeps 0 ≤ reserved ≤ quantity, so
available = quantity − reserved is never negative.  Every reachable state
is runOps of some prefix, so quantifying over all op lists covers every
reachable state. -/
theorem claim_C4 (ops : List (String × Int)) (hpos : ∀ p ∈ ops, 0 < p.2) :
    stockInvariant (runOps ops) ∧ 0 ≤ (runOps ops).1 - (runOps ops).2 := by
  have h := foldl_stepOp_invariant ops (0, 0) (by constructor <;> simp) hpos
  unfold runOps
  exact ⟨h, by obtain ⟨h1, h2⟩ := h; omega⟩

/-- Witness for C4 on a concrete positive-amount sequence. -/
theorem claim_C4_witness :
    (∀ p ∈ [("ADD", (10 : Int)), ("RESERVE", 4), ("SUBTRACT", 3), ("RELEASE", 2)], 0 < p.2)
  ∧ stockInvariant (runOps [("ADD", 10), ("RESERVE", 4), ("SUBTRACT", 3), ("RELEASE", 2)]) :=
  ⟨by decide, (claim_C4 _ (by decide)).1⟩

/-- Claim C8: RESERVE n then RELEASE n is a round trip on any counters
satisfying the invariant with n available: RESERVE succeeds moving
reserved to reserved + n with quantity unchanged, and RELEASE on the
resulting counters succeeds restoring the original pair. -/
theorem claim_C8 (q r n : Int) (h0 : 0 ≤ r) (h1 : r ≤ q) (hn : 0 < n)
    (hav : n ≤ q - r) :
    applyKind "RESERVE" q r n = .ok (q, r + n)
  ∧ applyKind "RELEASE" q (r + n) n = .ok (q, r) := by
  constructor
  · rw [applyKind_reserve, if_neg (by omega)]
  · rw [applyKind_release, if_neg (by omega)]
    have hc : r + n - n = r := by ring
    rw [hc]

/-- Witness for C8 at the spec's Scenario A: quantity 100, reserved 0,
n = 30. -/
theorem claim_C8_witness :
    ((0 : Int) ≤ 0 ∧ (0 : Int) ≤ 100 ∧ (0 : Int) < 30 ∧ (30 : Int) ≤ 100 - 0)
  ∧ applyKind "RESERVE" 100 0 30 = .ok (100, 30)
  ∧ applyKind "RELEASE" 100 (0 + 30) 30 = .ok (100, 0) := by
  refine ⟨by norm_num, ?_⟩
  exact claim_C8 100 0 30 (by norm_num) (by norm_num) (by norm_num) (by norm_num)

theorem updateStock_abort (env : SideEffectEnv) (now : Nat)
    (dto : UpdateStockDto) (st : SysState) :
    (∃ it, (updateStock env now dto st).1 = .ok it) ∨
    (updateStock env now dto st).2.store = st.store := by
  obtain ⟨c, m, qk⟩ := env
  cases c <;> cases m <;> cases qk <;>
    (simp only [updateStock]; split) <;>
    first
      | exact Or.inl ⟨_, rfl⟩
      | exact Or.inr rfl

theorem updateStock_ok_cache (env : SideEffectEnv) (now : Nat)
    (dto : UpdateStockDto) (st : SysState) (it : InventoryItem)
    (h : (updateStock env now dto st).1 = .ok it) :
    (updateStock env now dto st).2.cache =
      clearStockCache st.cache dto.productId (some dto.warehouseId) := by
  obtain ⟨c, m, qk⟩ := env
  revert h
  cases c <;> cases m <;> cases qk <;>
    (simp only [updateStock]; split) <;> intro h <;> first | rfl | simp at h

/-- Claim C5: whenever updateStock fails, the error reaches the caller
and the durable store (items with their counters and history, the audit
records, the reservations) is exactly as before the call: the session
abort leaves no partial update.  Only the non-transactional cache and
event side channels may differ. -/
theorem claim_C5 (env : SideEffectEnv) (now : Nat) (dto : UpdateStockDto)
    (st : SysState) (e : StockError)
    (h : (updateStock env now dto st).1 = .error e) :
    (updateStock env now dto st).2.store = st.store := by
  rcases updateStock_abort env now dto st with ⟨it, hit⟩ | hst
  · rw [h] at hit
    simp at hit
  · exact hst

/-- Witness for C5 at the spec Scenario B: SUBTRACT 6 on quantity 10,
reserved 5 fails with the insufficient-stock error and the store is
unchanged. -/
theorem claim_C5_witness :
    (updateStock envAll 2 subDto stateB).1 = .error .insufficientStockAvailable
  ∧ (updateStock envAll 2 subDto stateB).2.store = stateB.store :=
  ⟨by rfl, claim_C5 envAll 2 subDto stateB .insufficientStockAvailable (by rfl)⟩

/-- Claim C2 (evaluation): the side effects run inside the try block
before commitTransaction, so when the queue enqueue rejects on a valid
ADD, the whole transaction aborts: the caller receives the error and the
stock change is rolled back, contradicting the best-effort / warning
behaviour the spec requires. -/
theorem claim_C2 :
    (updateStock envNoQueue 1 addDto stateC2).1 = .error .queueAddFailed
  ∧ (updateStock envNoQueue 1 addDto stateC2).2.store = stateC2.store := by
  constructor <;> rfl

/-- Claim C1 (evaluation): with a stale cache entry of 100 for (P1, W1)
while the store item is at quantity 0, the reserveStock pre-check
passes, the reservation is persisted ACTIVE, the authoritative RESERVE
fails, and the error propagates with the reservation still ACTIVE in the
store: no rollback to CANCELLED or deletion happens. -/
theorem claim_C1 :
    (reserveStock envAll 0 "res1" reserveDto stateC1).1
      = .error .insufficientStockToReserve
  ∧ findReservation
      (reserveStock envAll 0 "res1" reserveDto stateC1).2.store.reservations "res1"
      = some { id := "res1"
               productId := "P1"
               warehouseId := "W1"
               quantity := 5
               status := "ACTIVE"
               createdAt := 0
               expiresAt := 1800 } := by
  constructor <;> rfl

/-- Counterexample to C9 as stated: after a successful commit of an ADD
on (P1, W1), the cache entry keyed by the same product but another
warehouse, stock:P1:W2, is still present, so not every cache key for the
productId is invalidated. -/
theorem claim_C9_cex :
    (updateStock envAll 1 addDto stateC9).1 = .ok itemC9
  ∧ ({ key := cacheKey "P1" (some "W2"), value := 7, expiresAt := 1000 } : CacheEntry)
      ∈ (updateStock envAll 1 addDto stateC9).2.cache := by
  constructor
  · rfl
  · decide

/-- Claim C9 (amended): after every successful updateStock commit the
cache entries for the product aggregate key and for the operation
warehouse key are deleted, and every other entry, including entries for
the same product scoped to other warehouses, survives unchanged. -/
theorem claim_C9 (env : SideEffectEnv) (now : Nat) (dto : UpdateStockDto)
    (st : SysState) (it : InventoryItem)
    (h : (updateStock env now dto st).1 = .ok it) :
    (∀ e2 ∈ (updateStock env now dto st).2.cache,
        e2.key ≠ cacheKey dto.productId none
      ∧ e2.key ≠ cacheKey dto.productId (some dto.warehouseId))
  ∧ (∀ e2 ∈ st.cache,
      e2.key ≠ cacheKey dto.productId none →
      e2.key ≠ cacheKey dto.productId (some dto.warehouseId) →
      e2 ∈ (updateStock env now dto st).2.cache) := by
  have hc := updateStock_ok_cache env now dto st it h
  rw [hc]
  unfold clearStockCache
  constructor
  · intro e2 he2
    rw [List.mem_filter] at he2
    obtain ⟨-, hk⟩ := he2
    simp at hk
    exact hk
  · intro e2 he2 h1 h2
    rw [List.mem_filter]
    refine ⟨he2, ?_⟩
    simp [h1, h2]

/-- Witness for C9 on stateC9: the ADD succeeds, afterwards no entry
carries the aggregate or the W1 key, and the W2 and P2 entries survive. -/
theorem claim_C9_witness :
    (updateStock envAll 1 addDto stateC9).1 = .ok itemC9
  ∧ ((∀ e2 ∈ (updateStock envAll 1 addDto stateC9).2.cache,
        e2.key ≠ cacheKey "P1" none ∧ e2.key ≠ cacheKey "P1" (some "W1"))
  ∧ (∀ e2 ∈ stateC9.cache,
      e2.key ≠ cacheKey "P1" none →
      e2.key ≠ cacheKey "P1" (some "W1") →
      e2 ∈ (updateStock envAll 1 addDto stateC9).2.cache)) :=
  ⟨by rfl, claim_C9 envAll 1 addDto stateC9 itemC9 (by rfl)⟩

theorem cacheGet_cacheSet (cache : List CacheEntry) (k : String) (v : Int)
    (ex now2 : Nat) (h : now2 < ex) :
    cacheGet (cacheSet cache k v ex) now2 k = some v := by
  unfold cacheGet cacheSet
  rw [List.find?_cons_of_pos]
  · simp [h]
  · simp

theorem availableAggregate_eq (items : List InventoryItem) (pid : String)
    (wid : Option String) :
    availableAggregate items pid wid =
      ((items.filter fun it => matchesQuery it pid wid).map fun it => it.quantity).sum
      - ((items.filter fun it => matchesQuery it pid wid).map fun it => it.reserved).sum := by
  unfold availableAggregate
  by_cases hms : (items.filter fun it => matchesQuery it pid wid).isEmpty = true
  · rw [if_pos hms]
    rw [List.isEmpty_iff] at hms
    rw [hms]
    simp
  · rw [if_neg hms]

theorem getStockLevel_hit (now : Nat) (items : List InventoryItem)
    (cache : List CacheEntry) (pid : String) (wid : Option String) (v : Int)
    (hhit : cacheGet cache now (cacheKey pid wid) = some v) :
    getStockLevel now items cache pid wid =
      { value := v, cache := cache, storeReads := 0 } := by
  simp only [getStockLevel]
  rw [hhit]

/-- Claim C6: getStockLevel is read-through.  On a cache miss it returns
the sum of quantity minus the sum of reserved over the active matching
items, performs one store read, stores that value under the derived key
with a 300 second time-to-live, and any later call within the
time-to-live returns the identical value from the cache with zero store
reads, whatever the store then contains. -/
theorem claim_C6 (now now2 : Nat) (items : List InventoryItem)
    (cache : List CacheEntry) (pid : String) (wid : Option String)
    (hmiss : cacheGet cache now (cacheKey pid wid) = none)
    (hwithin : now2 < now + 300) :
    (getStockLevel now items cache pid wid).value =
      ((items.filter fun it => matchesQuery it pid wid).map fun it => it.quantity).sum
      - ((items.filter fun it => matchesQuery it pid wid).map fun it => it.reserved).sum
  ∧ (getStockLevel now items cache pid wid).storeReads = 1
  ∧ (getStockLevel now items cache pid wid).cache =
      cacheSet cache (cacheKey pid wid)
        (getStockLevel now items cache pid wid).value (now + 300)
  ∧ ∀ items2 : List InventoryItem,
      getStockLevel now2 items2 (getStockLevel now items cache pid wid).cache pid wid
        = { value := (getStockLevel now items cache pid wid).value
            cache := (getStockLevel now items cache pid wid).cache
            storeReads := 0 } := by
  have h1 : getStockLevel now items cache pid wid =
      { value := availableAggregate items pid wid
        cache := cacheSet cache (cacheKey pid wid) (availableAggregate items pid wid)
          (now + CACHE_TTL)
        storeReads := 1 } := by
    simp only [getStockLevel]
    rw [hmiss]
  refine ⟨?_, ?_, ?_, ?_⟩
  · rw [h1]
    exact availableAggregate_eq items pid wid
  · rw [h1]
  · rw [h1]
    rfl
  · intro items2
    rw [h1]
    exact getStockLevel_hit now2 items2 _ pid wid _
      (cacheGet_cacheSet cache (cacheKey pid wid) (availableAggregate items pid wid)
        (now + CACHE_TTL) now2 hwithin)

/-- Witness for C6: a miss on the empty cache computes 10 from the store
and a call 100 ticks later answers 10 from the cache with zero store
reads, even against an emptied store. -/
theorem claim_C6_witness :
    cacheGet [] 0 (cacheKey "P1" (some "W1")) = none
  ∧ (getStockLevel 0 [sampleItem] [] "P1" (some "W1")).value = 10
  ∧ (getStockLevel 0 [sampleItem] [] "P1" (some "W1")).storeReads = 1
  ∧ getStockLevel 100 [] (getStockLevel 0 [sampleItem] [] "P1" (some "W1")).cache
      "P1" (some "W1")
      = { value := 10
          cache := (getStockLevel 0 [sampleItem] [] "P1" (some "W1")).cache
          storeReads := 0 } := by
  have h := claim_C6 0 100 [sampleItem] [] "P1" (some "W1") (by rfl) (by norm_num)
  have hv : (getStockLevel 0 [sampleItem] [] "P1" (some "W1")).value = 10 := by
    rw [h.1]
    rfl
  have h4 := h.2.2.2 []
  rw [hv] at h4
  exact ⟨by rfl, hv, h.2.1, h4⟩

/-- Claim C10: a cached value of 0 is a valid hit.  The miss test in the
code rejects only undefined and null, modelled by the Option match, so
when the cache holds 0 for the derived key the function returns 0 with
zero store reads and an unchanged cache. -/
theorem claim_C10 (now : Nat) (items : List InventoryItem)
    (cache : List CacheEntry) (pid : String) (wid : Option String)
    (hhit : cacheGet cache now (cacheKey pid wid) = some 0) :
    getStockLevel now items cache pid wid =
      { value := 0, cache := cache, storeReads := 0 } :=
  getStockLevel_hit now items cache pid wid 0 hhit

/-- Witness for C10 on a cache holding 0 under the aggregate key. -/
theorem claim_C10_witness :
    cacheGet [{ key := "stock:P1:all", value := 0, expiresAt := 100 }] 0
      (cacheKey "P1" none) = some 0
  ∧ getStockLevel 0 [sampleItem]
      [{ key := "stock:P1:all", value := 0, expiresAt := 100 }] "P1" none
      = { value := 0
          cache := [{ key := "stock:P1:all", value := 0, expiresAt := 100 }]
          storeReads := 0 } :=
  ⟨by rfl, claim_C10 0 [sampleItem]
    [{ key := "stock:P1:all", value := 0, expiresAt := 100 }] "P1" none (by rfl)⟩

theorem updateStock_found_ok (now : Nat) (dto : UpdateStockDto) (st : SysState)
    (it : InventoryItem) (q2 r2 : Int)
    (hit : findItem st.store.items dto.productId dto.warehouseId = some it)
    (happ : applyKind dto.operation it.quantity it.reserved dto.quantity
      = .ok (q2, r2)) :
    (updateStock envAll now dto st).1 = .ok (itemAfter it dto q2 r2 now)
  ∧ (updateStock envAll now dto st).2.store.items
      = upsertItem st.store.items (itemAfter it dto q2 r2 now)
  ∧ (updateStock envAll now dto st).2.store.audits
      = st.store.audits ++ [auditAfter dto q2 r2 now]
  ∧ (updateStock envAll now dto st).2.store.reservations
      = st.store.reservations := by
  simp only [updateStock, hit, Option.getD_some, happ, envAll]
  refine ⟨rfl, rfl, rfl, rfl⟩

theorem find?_pred_of_findItem (items : List InventoryItem) (pid wid : String)
    (it : InventoryItem) (hit : findItem items pid wid = some it) :
    it.productId = pid ∧ it.warehouseId = wid := by
  have h := List.find?_some hit
  simp only [Bool.and_eq_true, beq_iff_eq] at h
  exact h

theorem findItem_upsertItem (items : List InventoryItem) (it2 : InventoryItem) :
    findItem (upsertItem items it2) it2.productId it2.warehouseId = some it2 := by
  induction items with
  | nil =>
    simp [upsertItem, findItem]
  | cons x xs ih =>
    unfold upsertItem
    by_cases hx : (x.productId == it2.productId && x.warehouseId == it2.warehouseId) = true
    · rw [if_pos hx]
      unfold findItem
      rw [List.find?_cons_of_pos]
      simp
    · rw [if_neg hx]
      unfold findItem at ih ⊢
      rw [List.find?_cons_of_neg]
      · exact ih
      · exact hx

theorem findReservation_saveReservation (rs : List Reservation) (rid : String)
    (r r2 : Reservation) (hfind : findReservation rs rid = some r)
    (hid : r2.id = r.id) :
    findReservation (saveReservation rs r2) rid = some r2 := by
  have hrid : (r.id == rid) = true := by
    have hfind0 : List.find? (fun x => x.id == rid) rs = some r := hfind
    simpa using List.find?_some hfind0
  induction rs with
  | nil => simp [findReservation] at hfind
  | cons x xs ih =>
    unfold findReservation at hfind
    unfold findReservation saveReservation
    rw [List.map_cons]
    by_cases hx : (x.id == rid) = true
    · simp only [List.find?_cons, hx] at hfind
      injection hfind with hxr
      have hxx : (x.id == r2.id) = true := by
        rw [hid, ← hxr]
        simp
      rw [if_pos hxx]
      have hr2 : (r2.id == rid) = true := by
        rw [hid]
        exact hrid
      simp only [List.find?_cons, hr2]
    · have hx2 : (x.id == rid) = false := by simpa using hx
      simp only [List.find?_cons, hx2] at hfind
      have hxid : ¬(x.id == r2.id) = true := by
        intro hc
        apply hx
        rw [eq_of_beq hc, hid]
        exact hrid
      rw [if_neg hxid]
      simp only [List.find?_cons, hx2]
      exact ih hfind

/-- Claim C7: the expiry handler re-reads the reservation.  When its
status is no longer ACTIVE the handler changes nothing.  When it is
still ACTIVE (and the item exists holding at least the reserved
quantity, as the counter invariant guarantees), the handler succeeds,
the reservation is saved with status EXPIRED, the item loses exactly
reservation.quantity from reserved with quantity untouched, and the
audit trail gains exactly one RELEASE record of that quantity with
reason "Reservation expired" and referenceId the reservation id. -/
theorem claim_C7 (now : Nat) (rid : String) (st : SysState)
    (r : Reservation) (it : InventoryItem)
    (hfind : findReservation st.store.reservations rid = some r)
    (hit : findItem st.store.items r.productId r.warehouseId = some it)
    (henough : r.quantity ≤ it.reserved) :
    (r.status ≠ "ACTIVE" →
      checkReservationExpiry envAll now rid st = (.ok (), st))
  ∧ (r.status = "ACTIVE" →
      (checkReservationExpiry envAll now rid st).1 = .ok ()
    ∧ findReservation
        (checkReservationExpiry envAll now rid st).2.store.reservations rid
        = some { r with status := "EXPIRED" }
    ∧ findItem (checkReservationExpiry envAll now rid st).2.store.items
        r.productId r.warehouseId
        = some { it with
                 reserved := it.reserved - r.quantity
                 lastUpdated := now
                 history := it.history ++
                   [{ operation := "RELEASE"
                      quantity := r.quantity
                      reason := some "Reservation expired"
                      referenceId := some rid
                      timestamp := now }] }
    ∧ (checkReservationExpiry envAll now rid st).2.store.audits
        = st.store.audits ++
          [{ productId := r.productId
             warehouseId := r.warehouseId
             operation := "RELEASE"
             quantity := r.quantity
             newQuantity := it.quantity
             newReserved := it.reserved - r.quantity
             reason := some "Reservation expired"
             referenceId := some rid
             timestamp := now }]) := by
  constructor
  · intro hne
    simp only [checkReservationExpiry, hfind]
    rw [if_neg (fun hb => hne (eq_of_beq hb))]
  · intro hact
    have hbeq : (r.status == "ACTIVE") = true := by
      rw [hact]
      rfl
    have hrel : applyKind "RELEASE" it.quantity it.reserved r.quantity
        = .ok (it.quantity, it.reserved - r.quantity) := by
      rw [applyKind_release, if_neg (not_lt.mpr henough)]
    have hpw := find?_pred_of_findItem st.store.items r.productId r.warehouseId it hit
    have hupd := updateStock_found_ok now
      { productId := r.productId
        warehouseId := r.warehouseId
        quantity := r.quantity
        operation := "RELEASE"
        reason := some "Reservation expired"
        referenceId := some rid }
      { st with store :=
        { st.store with reservations :=
            saveReservation st.store.reservations { r with status := "EXPIRED" } } }
      it it.quantity (it.reserved - r.quantity) hit hrel
    have hshape : checkReservationExpiry envAll now rid st
        = (.ok (), (updateStock envAll now
            { productId := r.productId
              warehouseId := r.warehouseId
              quantity := r.quantity
              operation := "RELEASE"
              reason := some "Reservation expired"
              referenceId := some rid }
            { st with store :=
              { st.store with reservations :=
                  saveReservation st.store.reservations { r with status := "EXPIRED" } } }).2) := by
      simp only [checkReservationExpiry, hfind, hbeq, if_true]
      rw [hupd.1]
    refine ⟨?_, ?_, ?_, ?_⟩
    · rw [hshape]
    · rw [hshape]
      rw [hupd.2.2.2]
      exact findReservation_saveReservation st.store.reservations rid r
        { r with status := "EXPIRED" } hfind rfl
    · rw [hshape]
      rw [hupd.2.1]
      obtain ⟨hp, hw⟩ := hpw
      rw [← hp, ← hw]
      simpa [itemAfter] using findItem_upsertItem st.store.items
        (itemAfter it
          { productId := r.productId
            warehouseId := r.warehouseId
            quantity := r.quantity
            operation := "RELEASE"
            reason := some "Reservation expired"
            referenceId := some rid }
          it.quantity (it.reserved - r.quantity) now)
    · rw [hshape]
      rw [hupd.2.2.1]
      rfl

/-- Witness for C7: expiring the ACTIVE sample reservation of 4 units
marks it EXPIRED and the handler reports success. -/
theorem claim_C7_witness :
    findReservation stateC7.store.reservations "r1" = some sampleRes
  ∧ findItem stateC7.store.items "P1" "W1" = some sampleItemR
  ∧ ((4 : Int) ≤ 4 ∧ sampleRes.status = "ACTIVE")
  ∧ (checkReservationExpiry envAll 60 "r1" stateC7).1 = .ok ()
  ∧ findReservation
      (checkReservationExpiry envAll 60 "r1" stateC7).2.store.reservations "r1"
      = some { sampleRes with status := "EXPIRED" } := by
  have h := claim_C7 60 "r1" stateC7 sampleRes sampleItemR rfl rfl (by decide)
  have h2 := h.2 rfl
  exact ⟨rfl, rfl, ⟨by norm_num, rfl⟩, h2.1, h2.2.1⟩

end InventorySync
